import Mathlib

/-!
Shallow embedding of the E-Learning backend (Express/Mongoose application).

Source layout referenced below:
- `middleware/authMiddleware.js` : `authenticateToken`, `authorizeRoles`
- `utils/tokenBlacklist.js`      : shared in-memory blacklist `Set`
- `routes/userRoutes.js`         : signup/login/users/profile/logout routes
  (the evolved variant, with the inline `POST /logout` handler and its
  module-local `const tokenBlacklist = []` array)
- `controllers/userController.js`: evolved variant with signup/login/logout
- `routes/courseRoutes.js`, `routes/lessonRoutes.js`, `routes/topicRoutes.js`
- `models/course.js`, `models/lesson.js`, `models/topic.js`

Mongoose documents are modelled as Lean structures with `Nat` ids; the
document store is a list per collection inside `AppState`.  JSON responses
are modelled by the `Response` structure: each optional field stands for the
corresponding key of the JSON body (`none` = absent / JSON `null`).
-/

/-- JWT payload as produced by `jwt.sign({ id, role }, secret, { expiresIn: "1h" })`:
`exp` is the absolute expiry instant (issuance time + 3600 seconds). -/
structure JwtPayload where
  id : Nat
  role : String
  exp : Nat
  deriving Repr, DecidableEq

/-- A signed token: the payload together with its signature string.  The
signature is modelled as the secret concatenated with an encoding of the
payload, so that a signature binds both the secret and the payload, as a
real HMAC-signed JWT does. -/
structure Token where
  payload : JwtPayload
  sig : String
  deriving Repr, DecidableEq

/-- Deterministic text encoding of a payload, used by the modelled signature. -/
def encodePayload (p : JwtPayload) : String :=
  toString p.id ++ "|" ++ p.role ++ "|" ++ toString p.exp

/-- Process-wide signing secret (`process.env.JWT_SECRET`), loaded once at startup. -/
def jwtSecret : String := "JWT_SECRET"

/-- `jwt.sign(payload, secret)`: attaches the modelled signature. -/
def jwtSign (p : JwtPayload) (secret : String) : Token :=
  { payload := p, sig := secret ++ ":" ++ encodePayload p }

/-- `jwt.verify(token, secret)` at time `now`: succeeds only when the
signature matches the payload under `secret` and the expiry has not elapsed;
otherwise it throws, modelled by `none`. -/
def jwtVerify (t : Token) (secret : String) (now : Nat) : Option JwtPayload :=
  if t.sig = secret ++ ":" ++ encodePayload t.payload ∧ now < t.payload.exp then
    some t.payload
  else
    none

/-- Modelled from the spec: the one-way password hash applied by the User
model's pre-save hook (`models/User.js` is not among the provided sources;
the spec requires "a one-way hashed secret — never stored or compared in
plaintext").  An injective tagging function stands in for the hash. -/
def hashPassword (s : String) : String := "hashed:" ++ s

/-- User document.  Modelled from the spec: `models/User.js` is not among the
provided sources; the spec lists identity (unique email), display name,
hashed credential, enumerated role `user | admin`, and optional profile
attributes. -/
structure User where
  id : Nat
  name : String
  email : String
  password : String
  role : String
  profilePhoto : Option String := none
  phoneNumber : Option String := none
  knowledge : Option String := none
  deriving Repr, DecidableEq

/-- Modelled from the spec: `user.comparePassword(candidate)` of the missing
`models/User.js`, comparing the stored hash against the hash of the
candidate (never plaintext against plaintext). -/
def comparePassword (u : User) (pw : String) : Bool :=
  u.password == hashPassword pw

/-- Course document (`models/course.js`). -/
structure Course where
  id : Nat
  title : String
  description : String
  instructor : String
  price : Int
  image : Option String := none
  deriving Repr, DecidableEq

/-- Lesson document (`models/lesson.js`): required `courseId` reference and a
list of referenced Topic ids. -/
structure Lesson where
  id : Nat
  title : String
  description : String
  courseId : Nat
  topics : List Nat := []
  content : Option String := none
  deriving Repr, DecidableEq

/-- Topic document (`models/topic.js`): required `lessonId` reference. -/
structure Topic where
  id : Nat
  title : String
  description : String
  lessonId : Nat
  image : Option String := none
  deriving Repr, DecidableEq

/-- Whole-application state: the four document collections, the two token
blacklists that exist in the code, and the id counter standing in for
Mongoose's `_id` generation.

`blacklist` is the shared `Set` of `utils/tokenBlacklist.js` — the one
consulted by `authenticateToken`.  `routeLocalBlacklist` is the separate
module-local `const tokenBlacklist = []` array declared inside
`routes/userRoutes.js` (evolved variant, line 381), which only the inline
`POST /logout` handler writes to and nothing ever reads. -/
structure AppState where
  users : List User := []
  courses : List Course := []
  lessons : List Lesson := []
  topics : List Topic := []
  blacklist : List Token := []
  routeLocalBlacklist : List Token := []
  nextId : Nat := 1
  deriving Repr, DecidableEq

/-- JSON response.  `status` is the HTTP status; the remaining fields model
the keys of the JSON body (`none` = key absent, or JSON `null` where the
handler serialises a null lookup result, as in `GET /courses/:id`). -/
structure Response where
  status : Nat
  message : Option String := none
  error : Option String := none
  token : Option Token := none
  user : Option User := none
  course : Option Course := none
  lesson : Option Lesson := none
  topic : Option Topic := none
  deriving Repr, DecidableEq

/-- Outcome of the `authenticateToken` middleware: either an early JSON error
response, or success — `ok u` models `req.user = dbUser; next()`, i.e. the
resolved user attached to the request context with control passed on. -/
inductive AuthResult where
  | fail (status : Nat) (message : String)
  | ok (user : User)
  deriving Repr, DecidableEq

/-- `authenticateToken` (`middleware/authMiddleware.js`).  `bearer` is the
result of extracting the token from the `Authorization: Bearer <token>`
header (`authHeader && authHeader.split(' ')[1]`); `none` when the header or
the token part is absent.  Order of checks, exactly as in the source: missing
token → 401; shared-blacklist membership → 403 (before any verification);
`jwt.verify` failure → 403; unknown subject id → 404; otherwise success. -/
def authenticateToken (st : AppState) (now : Nat) (bearer : Option Token) : AuthResult :=
  match bearer with
  | none => .fail 401 "Access denied. No token provided."
  | some token =>
    if st.blacklist.contains token then
      .fail 403 "Token is blacklisted. Please log in again."
    else
      match jwtVerify token jwtSecret now with
      | none => .fail 403 "Invalid token."
      | some payload =>
        match st.users.find? (fun u => u.id == payload.id) with
        | none => .fail 404 "User not found."
        | some dbUser => .ok dbUser

/-- `authorizeRoles(...roles)` (`middleware/authMiddleware.js`): 403 when the
authenticated user's role is not in the allowed list. -/
def authorizeRoles (roles : List String) (u : User) : Option Response :=
  if roles.contains u.role then
    none
  else
    some { status := 403, message := some "Access denied. Insufficient permissions." }

/-- Request body of `POST /api/signup` (evolved `userController.signup`).
`none` models an absent (`undefined`) field. -/
structure SignupBody where
  name : Option String := none
  email : Option String := none
  password : Option String := none
  role : Option String := none
  profilePhoto : Option String := none
  phoneNumber : Option String := none
  knowledge : Option String := none
  deriving Repr, DecidableEq

/-- `role: role || "user"` — JavaScript truthiness: an absent or empty role
string falls back to `"user"`. -/
def defaultRole (role : Option String) : String :=
  match role with
  | none => "user"
  | some r => if r = "" then "user" else r

/-- Modelled from the spec: validation performed by `user.save()` of the
missing `models/User.js` — name, email and password are required and the
role is the enumeration `user | admin`.  Returns `true` when the save
succeeds. -/
def userSaveOk (name email password : Option String) (role : String) : Bool :=
  name.isSome && email.isSome && password.isSome &&
    (role == "user" || role == "admin")

/-- `signup` (evolved `controllers/userController.js`, lines 28–63): reject a
duplicate email with 400; otherwise create the user (role defaulted to
`"user"`, password hashed by the model's pre-save hook), sign a 1-hour token
embedding `{ id, role }`, and answer 201 with the user and the token. -/
def signup (st : AppState) (now : Nat) (body : SignupBody) : Response × AppState :=
  match st.users.find? (fun u => some u.email == body.email) with
  | some _ => ({ status := 400, message := some "User already exists" }, st)
  | none =>
    let role := defaultRole body.role
    if userSaveOk body.name body.email body.password role then
      let user : User :=
        { id := st.nextId
          name := body.name.getD ""
          email := body.email.getD ""
          password := hashPassword (body.password.getD "")
          role := role
          profilePhoto := body.profilePhoto
          phoneNumber := body.phoneNumber
          knowledge := body.knowledge }
      let token := jwtSign { id := user.id, role := user.role, exp := now + 3600 } jwtSecret
      ({ status := 201, message := some "User created successfully",
         user := some user, token := some token },
       { st with users := st.users ++ [user], nextId := st.nextId + 1 })
    else
      ({ status := 400, message := some "User validation failed" }, st)

/-- Request body of `POST /api/login`. -/
structure LoginBody where
  email : String
  password : String
  deriving Repr, DecidableEq

/-- `login` (evolved `controllers/userController.js`, lines 66–93): unknown
email → 400 "Invalid email or password"; known email with a failing
`comparePassword` → the identical 400 response; otherwise 200 with a fresh
1-hour token and the user. -/
def login (st : AppState) (now : Nat) (body : LoginBody) : Response × AppState :=
  match st.users.find? (fun u => u.email == body.email) with
  | none => ({ status := 400, message := some "Invalid email or password" }, st)
  | some user =>
    if comparePassword user body.password then
      let token := jwtSign { id := user.id, role := user.role, exp := now + 3600 } jwtSecret
      ({ status := 200, message := some "Login successful",
         token := some token, user := some user }, st)
    else
      ({ status := 400, message := some "Invalid email or password" }, st)

/-- `POST /api/logout` (routes/userRoutes.js evolved variant, lines 400–407):
runs `authenticateToken` first, then the inline handler re-extracts the
bearer token and pushes it onto the module-local `tokenBlacklist` array of
the routes file — NOT the shared `utils/tokenBlacklist` set consulted by
`authenticateToken`. -/
def postLogout (st : AppState) (now : Nat) (bearer : Option Token) : Response × AppState :=
  match authenticateToken st now bearer with
  | .fail s m => ({ status := s, message := some m }, st)
  | .ok _ =>
    match bearer with
    | some token =>
      ({ status := 200, message := some "Logout successful" },
       { st with routeLocalBlacklist := st.routeLocalBlacklist ++ [token] })
    | none => ({ status := 400, message := some "Token required" }, st)

/-- `logout` of the evolved `controllers/userController.js` (lines 96–102).
This variant adds the token to the shared `utils/tokenBlacklist` set — the
one `authenticateToken` consults — but no route in the evolved
`routes/userRoutes.js` is wired to it. -/
def logoutController (st : AppState) (bearer : Option Token) : Response × AppState :=
  match bearer with
  | some token =>
    ({ status := 200, message := some "Logout successful" },
     { st with blacklist := st.blacklist ++ [token] })
  | none => ({ status := 200, message := some "Logout successful" }, st)

/-- `GET /api/profile` (routes/userRoutes.js, line 410): `authenticateToken`
then `res.json(req.user)` (status 200). -/
def getProfile (st : AppState) (now : Nat) (bearer : Option Token) : Response :=
  match authenticateToken st now bearer with
  | .fail s m => { status := s, message := some m }
  | .ok user => { status := 200, user := some user }

/-- `GET /api/courses/:id` (routes/courseRoutes.js, lines 212–220): the
handler does `Course.findById` and serialises the result with status 200
without any null check — a missing course yields `200` with a `null` body
(`course := none`). -/
def getCourseById (st : AppState) (cid : Nat) : Response :=
  { status := 200, course := st.courses.find? (fun c => c.id == cid) }

/-- `DELETE /api/admin/courses/:id` handler (routes/courseRoutes.js, lines
142–155): `Course.findByIdAndDelete`; 404 when absent, otherwise the course
record alone is removed. -/
def deleteCourse (st : AppState) (cid : Nat) : Response × AppState :=
  match st.courses.find? (fun c => c.id == cid) with
  | none => ({ status := 404, error := some "Course not found" }, st)
  | some _ =>
    ({ status := 200, message := some "Course deleted successfully" },
     { st with courses := st.courses.filter (fun c => !(c.id == cid)) })

/-- Request body of `POST /api/lessons`. -/
structure LessonBody where
  title : Option String := none
  description : Option String := none
  courseId : Option Nat := none
  content : Option String := none
  deriving Repr, DecidableEq

/-- `POST /api/lessons` handler (routes/lessonRoutes.js, lines 45–58):
`new Lesson(req.body); lesson.save()` — Mongoose validates that `title`,
`description` and `courseId` are present (400 on failure), but performs no
check that `courseId` references an existing Course. -/
def createLesson (st : AppState) (body : LessonBody) : Response × AppState :=
  match body.title, body.description, body.courseId with
  | some t, some d, some cid =>
    let lesson : Lesson :=
      { id := st.nextId, title := t, description := d, courseId := cid,
        topics := [], content := body.content }
    ({ status := 201, lesson := some lesson },
     { st with lessons := st.lessons ++ [lesson], nextId := st.nextId + 1 })
  | _, _, _ => ({ status := 400, error := some "Lesson validation failed" }, st)

/-- `DELETE /api/lessons/:id` handler (routes/lessonRoutes.js, lines
204–221): `Lesson.findByIdAndDelete`, then
`Topic.deleteMany({ _id: { $in: lesson.topics } })` — the topics removed are
those whose id occurs in the deleted lesson's `topics` reference array, not
those whose `lessonId` field points at the lesson. -/
def deleteLesson (st : AppState) (lid : Nat) : Response × AppState :=
  match st.lessons.find? (fun l => l.id == lid) with
  | none => ({ status := 404, error := some "Lesson not found" }, st)
  | some lesson =>
    ({ status := 200, message := some "Lesson deleted successfully" },
     { st with
        lessons := st.lessons.filter (fun l => !(l.id == lid)),
        topics := st.topics.filter (fun t => !(lesson.topics.contains t.id)) })

/-- `GET /api/topics/:id` handler (routes/topicRoutes.js, lines 128–136):
404 when the id resolves to no Topic, otherwise 200 with the topic. -/
def getTopicById (st : AppState) (tid : Nat) : Response :=
  match st.topics.find? (fun t => t.id == tid) with
  | none => { status := 404, error := some "Topic not found" }
  | some topic => { status := 200, topic := some topic }

/-- Request body of `POST /api/admin/topics` (multipart form; `image` is the
uploaded file's stored path when a file was sent). -/
structure TopicBody where
  title : Option String := none
  description : Option String := none
  lessonId : Option Nat := none
  image : Option String := none
  deriving Repr, DecidableEq

/-- `POST /api/admin/topics` handler (routes/topicRoutes.js, lines 59–87):
`new Topic(...); topic.save()` happens FIRST (Mongoose validates presence of
`title`, `description`, `lessonId` — 400 on failure — but not referential
existence); only afterwards is the Lesson looked up.  When the lesson is
missing the handler answers 404 — with the Topic already persisted and never
rolled back.  On success the topic id is pushed onto the lesson's `topics`
array. -/
def createTopic (st : AppState) (body : TopicBody) : Response × AppState :=
  match body.title, body.description, body.lessonId with
  | some t, some d, some lid =>
    let topic : Topic :=
      { id := st.nextId, title := t, description := d, lessonId := lid,
        image := body.image }
    let st1 : AppState :=
      { st with topics := st.topics ++ [topic], nextId := st.nextId + 1 }
    match st1.lessons.find? (fun l => l.id == lid) with
    | none => ({ status := 404, error := some "Lesson not found" }, st1)
    | some lesson =>
      let lesson2 : Lesson := { lesson with topics := lesson.topics ++ [topic.id] }
      ({ status := 201, topic := some topic },
       { st1 with lessons := st1.lessons.map (fun l => if l.id == lesson.id then lesson2 else l) })
  | _, _, _ => ({ status := 400, error := some "Topic validation failed" }, st)

/-- `DELETE /api/admin/topics/:id` handler (routes/topicRoutes.js, lines
221–242): `Topic.findByIdAndDelete`; 404 when absent.  Then the owning
lesson is looked up via the deleted topic's `lessonId`; when it exists the
topic id is pulled from its `topics` array, and when it does not exist the
pull is silently skipped — the response is 200 either way. -/
def deleteTopic (st : AppState) (tid : Nat) : Response × AppState :=
  match st.topics.find? (fun t => t.id == tid) with
  | none => ({ status := 404, error := some "Topic not found" }, st)
  | some topic =>
    let st1 : AppState := { st with topics := st.topics.filter (fun t => !(t.id == tid)) }
    match st1.lessons.find? (fun l => l.id == topic.lessonId) with
    | none => ({ status := 200, message := some "Topic deleted successfully" }, st1)
    | some lesson =>
      let lesson2 : Lesson := { lesson with topics := lesson.topics.filter (fun x => !(x == topic.id)) }
      ({ status := 200, message := some "Topic deleted successfully" },
       { st1 with lessons := st1.lessons.map (fun l => if l.id == lesson.id then lesson2 else l) })

/-! Concrete fixtures used by witnesses and counterexamples. -/

/-- Sample user matching the spec's scenario (`{name:"A", email:"a@x.com", password:"p1"}`). -/
def userA : User :=
  { id := 1, name := "A", email := "a@x.com", password := hashPassword "p1", role := "user" }

/-- A correctly signed 1-hour token for `userA` issued at time 0. -/
def tokenA : Token := jwtSign { id := 1, role := "user", exp := 3600 } jwtSecret

/-- A token with `userA`'s claims but a forged signature. -/
def forgedToken : Token := { payload := { id := 1, role := "user", exp := 3600 }, sig := "forged" }

/-- C1: for every protected request, `authenticateToken` yields exactly one of
these outcomes in this order — no bearer token → 401 Unauthenticated;
blacklisted token → 403 before any signature verification (the branch has no
verification hypothesis, so a revoked but still cryptographically valid token
is rejected); signature/expiry verification failure → 403; no user record
for the token's subject id → 404; otherwise the resolved user record is
attached to the request context (`AuthResult.ok`) and control passes on. -/
theorem authenticateToken_cascade (st : AppState) (now : Nat) (bearer : Option Token) :
    (bearer = none →
      authenticateToken st now bearer = .fail 401 "Access denied. No token provided.") ∧
    (∀ t, bearer = some t → st.blacklist.contains t = true →
      authenticateToken st now bearer = .fail 403 "Token is blacklisted. Please log in again.") ∧
    (∀ t, bearer = some t → st.blacklist.contains t = false →
      jwtVerify t jwtSecret now = none →
      authenticateToken st now bearer = .fail 403 "Invalid token.") ∧
    (∀ t p, bearer = some t → st.blacklist.contains t = false →
      jwtVerify t jwtSecret now = some p →
      st.users.find? (fun u => u.id == p.id) = none →
      authenticateToken st now bearer = .fail 404 "User not found.") ∧
    (∀ t p u, bearer = some t → st.blacklist.contains t = false →
      jwtVerify t jwtSecret now = some p →
      st.users.find? (fun u => u.id == p.id) = some u →
      authenticateToken st now bearer = .ok u) := by
  refine ⟨fun h => by subst h; rfl,
          fun t ht hb => by
            subst ht
            have hb' : t ∈ st.blacklist := by simpa using hb
            simp [authenticateToken, hb'],
          fun t ht hb hv => by
            subst ht
            have hb' : t ∉ st.blacklist := by simpa using hb
            simp [authenticateToken, hb', hv],
          fun t p ht hb hv hf => by
            subst ht
            have hb' : t ∉ st.blacklist := by simpa using hb
            simp [authenticateToken, hb', hv, hf],
          fun t p u ht hb hv hf => by
            subst ht
            have hb' : t ∉ st.blacklist := by simpa using hb
            simp [authenticateToken, hb', hv, hf]⟩

/-- C1 witness: each of the five outcomes exercised at a concrete input.  In
the blacklist case the token is `tokenA`, whose signature is valid — showing
that revocation is decided before verification. -/
theorem authenticateToken_cascade_witness :
    authenticateToken {} 0 none = .fail 401 "Access denied. No token provided." ∧
    authenticateToken { users := [userA], blacklist := [tokenA] } 0 (some tokenA) =
      .fail 403 "Token is blacklisted. Please log in again." ∧
    authenticateToken { users := [userA] } 0 (some forgedToken) = .fail 403 "Invalid token." ∧
    authenticateToken {} 0 (some tokenA) = .fail 404 "User not found." ∧
    authenticateToken { users := [userA] } 0 (some tokenA) = .ok userA :=
  ⟨(authenticateToken_cascade {} 0 none).1 rfl,
   (authenticateToken_cascade { users := [userA], blacklist := [tokenA] } 0 (some tokenA)).2.1
     tokenA rfl (by decide),
   (authenticateToken_cascade { users := [userA] } 0 (some forgedToken)).2.2.1
     forgedToken rfl (by decide) (by decide),
   (authenticateToken_cascade {} 0 (some tokenA)).2.2.2.1
     tokenA { id := 1, role := "user", exp := 3600 } rfl (by decide) (by decide) (by decide),
   (authenticateToken_cascade { users := [userA] } 0 (some tokenA)).2.2.2.2
     tokenA { id := 1, role := "user", exp := 3600 } userA rfl (by decide) (by decide) (by decide)⟩

/-- Initial state of the spec's logout scenario: `userA` registered, both
blacklists empty. -/
def stLogout : AppState := { users := [userA] }

/-- C2 (divergence): the wired `POST /api/logout` handler pushes the token
onto the module-local `tokenBlacklist` array of `routes/userRoutes.js`, not
the shared `utils/tokenBlacklist` set that `authenticateToken` consults.
Replaying the spec's scenario: the profile is served before logout (200),
logout itself answers 200, yet a subsequent `GET /api/profile` with the same
unexpired, validly signed token still answers 200 — not the claimed 403.
The token landed in the route-local array while the shared blacklist stayed
empty. -/
theorem logout_blacklist_disconnect :
    (getProfile stLogout 10 (some tokenA)).status = 200 ∧
    (postLogout stLogout 10 (some tokenA)).1.status = 200 ∧
    (postLogout stLogout 10 (some tokenA)).1.message = some "Logout successful" ∧
    (getProfile (postLogout stLogout 10 (some tokenA)).2 20 (some tokenA)).status = 200 ∧
    ¬ (getProfile (postLogout stLogout 10 (some tokenA)).2 20 (some tokenA)).status = 403 ∧
    (postLogout stLogout 10 (some tokenA)).2.routeLocalBlacklist = [tokenA] ∧
    (postLogout stLogout 10 (some tokenA)).2.blacklist = [] := by
  decide

/-- Supporting evidence for the intended behaviour: the `logout` of the
evolved `controllers/userController.js` — present in the repository but not
wired to any route — adds the token to the shared blacklist, after which the
Auth Gate does reject the token with 403, exactly as the spec's scenario
describes. -/
theorem logoutController_would_blacklist :
    (getProfile (logoutController stLogout (some tokenA)).2 20 (some tokenA)).status = 403 := by
  decide

/-- Lesson fixture for the cascade claims: its `topics` array references
topic 10 only. -/
def lessonX : Lesson := { id := 1, title := "L", description := "d", courseId := 1, topics := [10] }

/-- Topic referenced by `lessonX.topics`. -/
def topicListed : Topic := { id := 10, title := "T10", description := "d", lessonId := 1 }

/-- Topic whose `lessonId` points at `lessonX` but whose id is absent from
`lessonX.topics` (such records arise e.g. from `PUT /admin/topics/:id`
changing `lessonId`, or from the non-atomic create path). -/
def topicStray : Topic := { id := 11, title := "T11", description := "d", lessonId := 1 }

/-- Store containing `lessonX` and both topics. -/
def stCascade : AppState :=
  { lessons := [lessonX], topics := [topicListed, topicStray], nextId := 12 }

/-- C3 counterexample: deleting `lessonX` succeeds (200), yet `topicStray` —
whose `lessonId` equals the deleted lesson's id but which is not listed in
the lesson's `topics` array — survives, and fetching it returns 200, not the
claimed 404.  `Topic.deleteMany({_id: {$in: lesson.topics}})` selects by the
reference array, not by `lessonId`. -/
theorem deleteLesson_cascade_counterexample :
    (deleteLesson stCascade 1).1.status = 200 ∧
    topicStray.lessonId = 1 ∧
    (getTopicById (deleteLesson stCascade 1).2 11).status = 200 ∧
    ¬ (getTopicById (deleteLesson stCascade 1).2 11).status = 404 := by
  decide

/-- C3 (amended): a successful delete of Lesson L removes exactly the Topics
whose ids occur in L's `topics` reference array — fetching any of those
returns 404 — while every stored Topic not listed in the array (even one
whose `lessonId` equals L's id) survives the deletion. -/
theorem deleteLesson_removes_referenced_topics (st : AppState) (lid : Nat) (lesson : Lesson)
    (hfind : st.lessons.find? (fun l => l.id == lid) = some lesson) :
    (deleteLesson st lid).1.status = 200 ∧
    (∀ tid, tid ∈ lesson.topics → (getTopicById (deleteLesson st lid).2 tid).status = 404) ∧
    (∀ t, t ∈ st.topics → t.id ∉ lesson.topics → t ∈ (deleteLesson st lid).2.topics) := by
  have hpair : deleteLesson st lid =
      ({ status := 200, message := some "Lesson deleted successfully" },
       { st with
          lessons := st.lessons.filter (fun l => !(l.id == lid)),
          topics := st.topics.filter (fun t => !(lesson.topics.contains t.id)) }) := by
    simp only [deleteLesson, hfind]
  refine ⟨by rw [hpair], ?_, ?_⟩
  · intro tid htid
    have hnone :
        (st.topics.filter (fun t => !(lesson.topics.contains t.id))).find?
          (fun t => t.id == tid) = none := by
      rw [List.find?_eq_none]
      intro x hx hbeq
      have hxmem := List.mem_filter.mp hx
      have hid : x.id = tid := by simpa using hbeq
      have hmem : x.id ∈ lesson.topics := hid ▸ htid
      simp [hmem] at hxmem
    rw [hpair]
    simp only [getTopicById]
    rw [hnone]
  · intro t ht htn
    rw [hpair]
    exact List.mem_filter.mpr ⟨ht, by simpa using htn⟩

/-- C3 amended-claim witness: on `stCascade`, deleting lesson 1 yields 200,
the listed topic 10 subsequently fetches as 404, and the stray topic 11
(lessonId 1, not listed) is still stored. -/
theorem deleteLesson_removes_referenced_topics_witness :
    (deleteLesson stCascade 1).1.status = 200 ∧
    (getTopicById (deleteLesson stCascade 1).2 10).status = 404 ∧
    topicStray ∈ (deleteLesson stCascade 1).2.topics :=
  ⟨(deleteLesson_removes_referenced_topics stCascade 1 lessonX (by decide)).1,
   (deleteLesson_removes_referenced_topics stCascade 1 lessonX (by decide)).2.1 10 (by decide),
   (deleteLesson_removes_referenced_topics stCascade 1 lessonX (by decide)).2.2 topicStray
     (by decide) (by decide)⟩

/-- A well-formed topic-create body whose `lessonId` (5) references no Lesson
in the empty store. -/
def topicBodyDangling : TopicBody :=
  { title := some "T", description := some "d", lessonId := some 5 }

/-- C4 (divergence): `POST /admin/topics` with a well-formed body whose
`lessonId` matches no Lesson answers 404 "Lesson not found" — but because
`topic.save()` runs before the lesson lookup and is never rolled back, the
Topic record is persisted anyway: the store gains the new topic. -/
theorem createTopic_persists_on_missing_lesson :
    (createTopic {} topicBodyDangling).1.status = 404 ∧
    (createTopic {} topicBodyDangling).1.error = some "Lesson not found" ∧
    (createTopic {} topicBodyDangling).2.topics =
      [{ id := 1, title := "T", description := "d", lessonId := 5 }] ∧
    ¬ (createTopic {} topicBodyDangling).2.topics = ({} : AppState).topics := by
  decide

/-- A well-formed lesson-create body whose `courseId` (7) references no
Course in the empty store. -/
def lessonBodyDangling : LessonBody :=
  { title := some "L", description := some "d", courseId := some 7 }

/-- C5 counterexample: a lesson-create request whose `courseId` resolves to
no existing Course is not rejected — it answers 201 and the Lesson record is
created with the dangling `courseId`. -/
theorem createLesson_claim_counterexample :
    ({} : AppState).courses.find? (fun c => c.id == 7) = none ∧
    (createLesson {} lessonBodyDangling).1.status = 201 ∧
    (createLesson {} lessonBodyDangling).2.lessons =
      [{ id := 1, title := "L", description := "d", courseId := 7 }] := by
  decide

/-- C5 (amended): lesson-create validates only the presence of `title`,
`description` and `courseId`; it never consults the Course collection, so
for every store — including one where the `courseId` matches no Course — a
well-formed request answers 201 and appends the Lesson, courses untouched. -/
theorem createLesson_no_course_existence_check (st : AppState) (body : LessonBody)
    (t d : String) (cid : Nat)
    (ht : body.title = some t) (hd : body.description = some d)
    (hc : body.courseId = some cid) :
    (createLesson st body).1.status = 201 ∧
    (createLesson st body).2.lessons = st.lessons ++
      [{ id := st.nextId, title := t, description := d, courseId := cid,
         topics := [], content := body.content }] ∧
    (createLesson st body).2.courses = st.courses := by
  simp [createLesson, ht, hd, hc]

/-- C5 amended-claim witness: the empty store (so courseId 7 is dangling)
with `lessonBodyDangling`. -/
theorem createLesson_no_course_existence_check_witness :
    (createLesson {} lessonBodyDangling).1.status = 201 ∧
    (createLesson {} lessonBodyDangling).2.lessons = ({} : AppState).lessons ++
      [{ id := ({} : AppState).nextId, title := "L", description := "d", courseId := 7,
         topics := [], content := lessonBodyDangling.content }] ∧
    (createLesson {} lessonBodyDangling).2.courses = ({} : AppState).courses :=
  createLesson_no_course_existence_check {} lessonBodyDangling "L" "d" 7 rfl rfl rfl

/-- C7 counterexample: `GET /api/courses/:id` on an id that resolves to no
Course answers 200 with a `null` body — not the claimed 404-class failure. -/
theorem getCourseById_missing_counterexample :
    (getCourseById {} 3).status = 200 ∧
    (getCourseById {} 3).course = none ∧
    ¬ (getCourseById {} 3).status = 404 := by
  decide

/-- C7 (amended): for every authenticated `GET /api/courses/:id` whose id
resolves to no existing Course, the handler answers 200 with a `null` course
body; it contains no not-found check and never produces a 404. -/
theorem getCourseById_missing_returns_null (st : AppState) (cid : Nat)
    (h : st.courses.find? (fun c => c.id == cid) = none) :
    (getCourseById st cid).status = 200 ∧ (getCourseById st cid).course = none := by
  simp [getCourseById, h]

/-- C7 amended-claim witness: empty store, id 3. -/
theorem getCourseById_missing_returns_null_witness :
    (getCourseById {} 3).status = 200 ∧ (getCourseById {} 3).course = none :=
  getCourseById_missing_returns_null {} 3 rfl

/-- A token signed with the process secret verifies to its own payload at any
time before its expiry. -/
theorem jwtVerify_jwtSign (p : JwtPayload) (secret : String) (now : Nat)
    (h : now < p.exp) : jwtVerify (jwtSign p secret) secret now = some p := by
  simp [jwtVerify, jwtSign, h]

/-- C6: for every valid signup body (name, email and password present, role
defaulting to the `user | admin` enumeration) whose email matches no stored
user, signup answers 201 with a token and the created user; the token
verifies under the process secret, and its embedded subject id and role are
exactly those stored on the created user record. -/
theorem signup_issues_verifiable_token (st : AppState) (now : Nat) (body : SignupBody)
    (hu : st.users.find? (fun u => some u.email == body.email) = none)
    (hn : body.name.isSome = true) (he : body.email.isSome = true)
    (hp : body.password.isSome = true)
    (hr : defaultRole body.role = "user" ∨ defaultRole body.role = "admin") :
    (signup st now body).1.status = 201 ∧
    ∃ tok u, (signup st now body).1.token = some tok ∧
      (signup st now body).1.user = some u ∧
      u ∈ (signup st now body).2.users ∧
      jwtVerify tok jwtSecret now = some { id := u.id, role := u.role, exp := now + 3600 } := by
  have hsave : userSaveOk body.name body.email body.password (defaultRole body.role) = true := by
    rcases hr with h | h <;> simp [userSaveOk, hn, he, hp, h]
  simp only [signup, hu, hsave, if_true]
  refine ⟨trivial, _, _, rfl, rfl, ?_, ?_⟩
  · simp
  · exact jwtVerify_jwtSign _ _ _ (by show now < now + 3600; omega)

/-- Valid signup body of the spec's scenario. -/
def signupBodyA : SignupBody :=
  { name := some "A", email := some "a@x.com", password := some "p1" }

/-- C6 witness: signing up `signupBodyA` on the empty store at time 0. -/
theorem signup_issues_verifiable_token_witness :
    (signup {} 0 signupBodyA).1.status = 201 ∧
    ∃ tok u, (signup {} 0 signupBodyA).1.token = some tok ∧
      (signup {} 0 signupBodyA).1.user = some u ∧
      u ∈ (signup {} 0 signupBodyA).2.users ∧
      jwtVerify tok jwtSecret 0 = some { id := u.id, role := u.role, exp := 0 + 3600 } :=
  signup_issues_verifiable_token {} 0 signupBodyA rfl rfl rfl rfl (Or.inl rfl)

/-- Course fixture owning `lessonX` (whose `courseId` is 1). -/
def courseX : Course :=
  { id := 1, title := "C", description := "d", instructor := "I", price := 0 }

/-- Store with a course, a child lesson and that lesson's topic — exercising
the delete-course frame claim on a course that has children. -/
def stCourseTree : AppState :=
  { courses := [courseX], lessons := [lessonX], topics := [topicListed], nextId := 12 }

/-- C8: a successful admin delete of an existing Course removes only the
Course record — the Lesson and Topic collections of the resulting state are
unchanged, so every child Lesson (and every Topic under it) survives. -/
theorem deleteCourse_frame (st : AppState) (cid : Nat) (c : Course)
    (h : st.courses.find? (fun x => x.id == cid) = some c) :
    (deleteCourse st cid).1.status = 200 ∧
    (deleteCourse st cid).2.lessons = st.lessons ∧
    (deleteCourse st cid).2.topics = st.topics := by
  simp [deleteCourse, h]

/-- C8 witness: deleting course 1 of `stCourseTree` (which has child lesson
`lessonX` with `courseId = 1` and topic `topicListed`) leaves lessons and
topics untouched. -/
theorem deleteCourse_frame_witness :
    (deleteCourse stCourseTree 1).1.status = 200 ∧
    (deleteCourse stCourseTree 1).2.lessons = stCourseTree.lessons ∧
    (deleteCourse stCourseTree 1).2.topics = stCourseTree.topics :=
  deleteCourse_frame stCourseTree 1 courseX (by decide)

/-- C9: an admin delete of an existing Topic whose `lessonId` matches no
Lesson still succeeds with 200 "Topic deleted successfully": the Topic is
removed from the store and the lesson-side pull is silently skipped, leaving
the Lesson collection unchanged. -/
theorem deleteTopic_dangling_lesson (st : AppState) (tid : Nat) (topic : Topic)
    (hfind : st.topics.find? (fun t => t.id == tid) = some topic)
    (hno : st.lessons.find? (fun l => l.id == topic.lessonId) = none) :
    (deleteTopic st tid).1.status = 200 ∧
    (deleteTopic st tid).1.message = some "Topic deleted successfully" ∧
    (deleteTopic st tid).2.topics = st.topics.filter (fun t => !(t.id == tid)) ∧
    (deleteTopic st tid).2.lessons = st.lessons := by
  simp [deleteTopic, hfind, hno]

/-- Topic whose `lessonId` (99) references no Lesson. -/
def topicOrphan : Topic := { id := 3, title := "T3", description := "d", lessonId := 99 }

/-- C9 witness: deleting topic 3 in a store with no lessons at all. -/
theorem deleteTopic_dangling_lesson_witness :
    (deleteTopic { topics := [topicOrphan] } 3).1.status = 200 ∧
    (deleteTopic { topics := [topicOrphan] } 3).1.message = some "Topic deleted successfully" ∧
    (deleteTopic { topics := [topicOrphan] } 3).2.topics =
      ({ topics := [topicOrphan] } : AppState).topics.filter (fun t => !(t.id == 3)) ∧
    (deleteTopic { topics := [topicOrphan] } 3).2.lessons =
      ({ topics := [topicOrphan] } : AppState).lessons :=
  deleteTopic_dangling_lesson { topics := [topicOrphan] } 3 topicOrphan (by decide) (by decide)

/-- C10: a login whose email matches no user and a login whose email matches
a user but whose password fails `comparePassword` produce identical results —
the same status 400, the same "Invalid email or password" body, and the same
(unchanged) state — so the response does not reveal whether the email is
registered. -/
theorem login_indistinguishable_failures (st : AppState) (now : Nat)
    (e1 p1 e2 p2 : String) (u : User)
    (h1 : st.users.find? (fun x => x.email == e1) = none)
    (h2 : st.users.find? (fun x => x.email == e2) = some u)
    (h3 : comparePassword u p2 = false) :
    login st now { email := e1, password := p1 } = login st now { email := e2, password := p2 } ∧
    (login st now { email := e1, password := p1 }).1.status = 400 ∧
    (login st now { email := e1, password := p1 }).1.message =
      some "Invalid email or password" := by
  simp [login, h1, h2, h3]

/-- C10 witness: on a store holding only `userA` (email "a@x.com", password
hash of "p1"), the unknown-email login and the wrong-password login coincide. -/
theorem login_indistinguishable_failures_witness :
    login { users := [userA] } 0 { email := "b@x.com", password := "p9" } =
      login { users := [userA] } 0 { email := "a@x.com", password := "wrong" } ∧
    (login { users := [userA] } 0 { email := "b@x.com", password := "p9" }).1.status = 400 ∧
    (login { users := [userA] } 0 { email := "b@x.com", password := "p9" }).1.message =
      some "Invalid email or password" :=
  login_indistinguishable_failures { users := [userA] } 0 "b@x.com" "p9" "a@x.com" "wrong" userA
    (by decide) (by decide) (by decide)
